import Mathlib

/-!
Verification of the observer / tree-binding library in `tree_project.py`.

The development shallowly embeds the source:
* callbacks are identified by natural-number ids (a bound method such as
  `self.on_label_change` is one fixed id for the lifetime of the object);
* the module-level `_callback_queue` (a Python `set`) together with the
  `wx.CallLater` requests issued so far and a log of performed callback
  invocations form the scheduler state `Sched`; the iteration order of the
  Python set is modelled as insertion order;
* Python `AttributeError` / `KeyError` and errors raised by a client
  `get_tree_children` iterator are the constructors of `Err`; an operation
  that can raise returns the state reached at the point of the raise
  together with `some e`, mirroring that mutations made before the raise
  persist;
* `ObsVar.__init__` does not run `Observable.__init__`, so the observer set
  of an `ObsVar` is `Option (List Nat)` and a freshly constructed `ObsVar`
  carries `none` (the missing `_observers` attribute).
-/

namespace TreeProject

/-- Python exceptions that the embedded code can raise. -/
inductive Err where
  | attributeError
  | keyError
  | iterError
  | wxError
deriving DecidableEq

/-- Outcome of invoking one callback during a drain. -/
inductive CbResult where
  | ok
  | raises
deriving DecidableEq

/-- The process-wide scheduler state: the pending `_callback_queue`
(insertion-ordered, duplicate-free), the number of `wx.CallLater` drain
requests issued so far, and the log of callback invocations performed by
drains (newest last). -/
structure Sched where
  queue : List Nat
  drainRequests : Nat
  log : List Nat
deriving DecidableEq

/-- Insertion into a Python-set modelled as an insertion-ordered
duplicate-free list. -/
def setInsert (l : List Nat) (x : Nat) : List Nat :=
  if x ∈ l then l else l ++ [x]

/-- `set.update`: insert every element of `xs`. -/
def setUpdate (l : List Nat) (xs : List Nat) : List Nat :=
  xs.foldl setInsert l

/-- `Observable` from tree_project.py lines 30-43: holds a set of observer
callbacks. -/
structure Observable where
  observers : List Nat
deriving DecidableEq

/-- `Observable.__init__`: the observer set starts empty. -/
def Observable.init : Observable := ⟨[]⟩

/-- `Observable.add_observer`: `self._observers.add(observer)`. -/
def Observable.add_observer (o : Observable) (cb : Nat) : Observable :=
  ⟨setInsert o.observers cb⟩

/-- `Observable.remove_observer`: `self._observers.discard(observer)`. -/
def Observable.remove_observer (o : Observable) (cb : Nat) : Observable :=
  ⟨o.observers.filter (fun c => c ≠ cb)⟩

/-- The body of `Observable.notify_observers` acting on an observer list:
remember whether `_callback_queue` was empty, union the observers into it,
and issue a `wx.CallLater(process_callbacks)` request iff it was empty. -/
def obsNotify (obs : List Nat) (s : Sched) : Sched :=
  ⟨setUpdate s.queue obs,
   if s.queue.isEmpty then s.drainRequests + 1 else s.drainRequests,
   s.log⟩

/-- `Observable.notify_observers` (lines 38-43). -/
def Observable.notify_observers (o : Observable) (s : Sched) : Sched :=
  obsNotify o.observers s

/-- Apply `notify_observers` of each observable in turn. -/
def notifyAll (os : List Observable) (s : Sched) : Sched :=
  os.foldl (fun acc o => o.notify_observers acc) s

/-- One drain pass over a queue: pop the head, invoke it; a raising
callback has been popped and invoked, the exception propagates and the
rest of the queue is left pending. Returns (invoked, remaining, error). -/
def processQueue (interp : Nat → CbResult) : List Nat → List Nat × List Nat × Option Nat
  | [] => ([], [], none)
  | c :: rest =>
    match interp c with
    | CbResult.raises => ([c], rest, some c)
    | CbResult.ok =>
      let r := processQueue interp rest
      (c :: r.1, r.2.1, r.2.2)

/-- `process_callbacks` (lines 24-28): `while _callback_queue: pop(); call()`.
There is no exception handling around the call, so a raising callback
aborts the loop; the error (if any) is returned alongside the state. -/
def process_callbacks (interp : Nat → CbResult) (s : Sched) : Sched × Option Nat :=
  let r := processQueue interp s.queue
  (⟨r.2.1, s.drainRequests, s.log ++ r.1⟩, r.2.2)

/-- `ObsVar` (lines 47-58). Its `__init__` stores the value but never runs
`Observable.__init__`, so the `_observers` attribute may be absent:
`observers = none` models the missing attribute. -/
structure ObsVar (V : Type) where
  value : V
  observers : Option (List Nat)
deriving DecidableEq

/-- `ObsVar.__init__(value)`: stores the value; `_observers` is missing. -/
def ObsVar.init {V : Type} (v : V) : ObsVar V := ⟨v, none⟩

/-- `ObsVar.get`. -/
def ObsVar.get {V : Type} (o : ObsVar V) : V := o.value

/-- `Observable.add_observer` executed on an `ObsVar` receiver: reading
`self._observers` raises `AttributeError` when the attribute is absent. -/
def ObsVar.add_observer {V : Type} (o : ObsVar V) (cb : Nat) : Except Err (ObsVar V) :=
  match o.observers with
  | none => Except.error Err.attributeError
  | some obs => Except.ok ⟨o.value, some (setInsert obs cb)⟩

/-- `Observable.remove_observer` executed on an `ObsVar` receiver. -/
def ObsVar.remove_observer {V : Type} (o : ObsVar V) (cb : Nat) : Except Err (ObsVar V) :=
  match o.observers with
  | none => Except.error Err.attributeError
  | some obs => Except.ok ⟨o.value, some (obs.filter (fun c => c ≠ cb))⟩

/-- `ObsVar.set` (lines 55-58): compare with the current value; when
different, store the new value and then call `notify_observers`, which
raises `AttributeError` at `_callback_queue.update(self._observers)` when
the attribute is absent (the new value is already stored at that point,
and neither the queue nor the request count has been touched). -/
def ObsVar.set {V : Type} [DecidableEq V] (o : ObsVar V) (v : V) (s : Sched) :
    ObsVar V × Sched × Option Err :=
  if v = o.value then (o, s, none)
  else
    match o.observers with
    | none => (⟨v, none⟩, s, some Err.attributeError)
    | some obs => (⟨v, some obs⟩, obsNotify obs s, none)

/-- A domain-model tree node, the shape the `TestTreeNode` of test.py gives
to the abstract `TreeNode` contract. `labelId` is the identity of the
`tree_label` ObsVar object (each node owns its own), `leaf` the constant
result of `is_tree_leaf()`, `childrenObs` the identity of the
`tree_children_change` Observable. A call to `get_tree_children()` yields
the nodes of `childrenSeq` in order and then, when `childrenErr` is true,
raises (a `childrenSeq` of `[]` with `childrenErr` true models an iterator
that raises before yielding anything). -/
inductive Node where
  | mk (labelId : Nat) (leaf : Bool) (childrenSeq : List Node)
       (childrenErr : Bool) (childrenObs : Nat)

/-- Identity of the `tree_label` ObsVar of the node. -/
def Node.labelId : Node → Nat
  | Node.mk l _ _ _ _ => l

/-- `is_tree_leaf()`, constant per node. -/
def Node.leaf : Node → Bool
  | Node.mk _ f _ _ _ => f

/-- The nodes yielded by `get_tree_children()` before any iterator error. -/
def Node.childrenSeq : Node → List Node
  | Node.mk _ _ c _ _ => c

/-- Whether iterating `get_tree_children()` raises after the yielded ones. -/
def Node.childrenErr : Node → Bool
  | Node.mk _ _ _ e _ => e

/-- Identity of the `tree_children_change` Observable of the node. -/
def Node.childrenObs : Node → Nat
  | Node.mk _ _ _ _ o => o

/-- A visual item of the wx tree widget: its id, the id of its parent
(0 for the root item), its displayed text and its has-children mark. -/
structure Item where
  id : Nat
  parent : Nat
  text : String
  hasChildren : Bool
deriving DecidableEq

/-- The state a `TreeCtrl` object acts on: the stores of the label ObsVar
objects and of the children-change Observables (indexed by identity), the
two binding maps `_nodes_map : item id → node` and
`_tree_item_map : label id → item id`, the items of the widget, and the
next fresh item id (item ids start at 1). -/
structure TreeState where
  labels : Nat → ObsVar String
  childObs : Nat → Observable
  nodesMap : List (Nat × Node)
  treeItemMap : List (Nat × Nat)
  items : List Item
  nextItem : Nat

/-- Association-list lookup, first binding wins (Python dict lookup on the
duplicate-free lists our operations build). -/
def alookup {α : Type} (k : Nat) : List (Nat × α) → Option α
  | [] => none
  | p :: rest => if p.1 = k then some p.2 else alookup k rest

/-- Python dict assignment `m[k] = v`: overwrite the binding when the key
is present, append it otherwise. -/
def mapSet {α : Type} (m : List (Nat × α)) (k : Nat) (v : α) : List (Nat × α) :=
  if (alookup k m).isSome then m.map (fun p => if p.1 = k then (k, v) else p)
  else m ++ [(k, v)]

/-- Replace the label ObsVar stored under id `lid`. -/
def setLabel (st : TreeState) (lid : Nat) (x : ObsVar String) : TreeState :=
  { st with labels := fun l => if l = lid then x else st.labels l }

/-- Replace the children-change Observable stored under id `oid`. -/
def setChildObs (st : TreeState) (oid : Nat) (x : Observable) : TreeState :=
  { st with childObs := fun o => if o = oid then x else st.childObs o }

/-- `AddRoot` / `AppendItem` of the widget: create a fresh item under the
given parent with the given text and no has-children mark yet. -/
def appendItem (st : TreeState) (parent : Nat) (text : String) : Nat × TreeState :=
  (st.nextItem,
   { st with
       items := st.items ++ [⟨st.nextItem, parent, text, false⟩],
       nextItem := st.nextItem + 1 })

/-- `SetItemHasChildren` of the widget. -/
def setItemHasChildren (st : TreeState) (it : Nat) : TreeState :=
  { st with
      items := st.items.map (fun i =>
        if i.id = it then ⟨i.id, i.parent, i.text, true⟩ else i) }

/-- `Delete` of the widget removes an item together with its descendants;
the fuel bounds the recursion depth by the item count. -/
def deleteItemFuel : Nat → TreeState → Nat → TreeState
  | 0, st, _ => st
  | fuel + 1, st, it =>
    let childIds := (st.items.filter (fun i => i.parent = it)).map Item.id
    let st1 := childIds.foldl (deleteItemFuel fuel) st
    { st1 with items := st1.items.filter (fun i => i.id ≠ it) }

/-- `Delete` of the widget. -/
def deleteItem (st : TreeState) (it : Nat) : TreeState :=
  deleteItemFuel (st.items.length + 1) st it

/-- `GetFirstChild(item)[0]`: the first item whose parent is `p`, `none`
when the item has no visual children (wx returns an invalid handle). -/
def firstChild (st : TreeState) (p : Nat) : Option Nat :=
  ((st.items.filter (fun i => i.parent = p)).head?).map Item.id

/-- Callback id of the bound method `self.on_label_change`. -/
def cbLabel : Nat := 1

/-- Callback id of the bound method `self.on_children_change`. -/
def cbChildren : Nat := 2

/-- `TreeCtrl.__init__` (lines 81-85): it only creates the lock and the two
empty maps; the rest of the body is the placeholder comment, so nothing is
attached and no item exists. -/
def treeCtrlInit (labels : Nat → ObsVar String) (childObs : Nat → Observable) : TreeState :=
  ⟨labels, childObs, [], [], [], 1⟩

/-- `TreeCtrl.populate_tree` (lines 87-98): AddRoot with the label text,
put the item into `_nodes_map`, register the two observers, put the label
into `_tree_item_map`, mark has-children for a non-leaf. The `except`
clause only prints, so a raise keeps the mutations made so far. -/
def populate_tree (root : Node) (st : TreeState) : TreeState × Option Err :=
  let r := appendItem st 0 ((st.labels root.labelId).value)
  let st1 := { r.2 with nodesMap := mapSet r.2.nodesMap r.1 root }
  match (st1.labels root.labelId).add_observer cbLabel with
  | Except.error e => (st1, some e)
  | Except.ok lab =>
    let st2 := setLabel st1 root.labelId lab
    let st3 := setChildObs st2 root.childrenObs
      ((st2.childObs root.childrenObs).add_observer cbChildren)
    let st4 := { st3 with treeItemMap := mapSet st3.treeItemMap root.labelId r.1 }
    (if root.leaf then st4 else setItemHasChildren st4 r.1, none)

/-- The loop body of `on_item_expand` (lines 106-113) for one child:
AppendItem, `_nodes_map[child_item] = child`, register the two observers
(the label registration raises `AttributeError` on a fresh ObsVar),
`_tree_item_map[child.tree_label] = child_item`, mark has-children. -/
def expandChild (pItem : Nat) (child : Node) (st : TreeState) : TreeState × Option Err :=
  let r := appendItem st pItem ((st.labels child.labelId).value)
  let st1 := { r.2 with nodesMap := mapSet r.2.nodesMap r.1 child }
  match (st1.labels child.labelId).add_observer cbLabel with
  | Except.error e => (st1, some e)
  | Except.ok lab =>
    let st2 := setLabel st1 child.labelId lab
    let st3 := setChildObs st2 child.childrenObs
      ((st2.childObs child.childrenObs).add_observer cbChildren)
    let st4 := { st3 with treeItemMap := mapSet st3.treeItemMap child.labelId r.1 }
    (if child.leaf then st4 else setItemHasChildren st4 r.1, none)

/-- The `for child in node.get_tree_children()` loop of `on_item_expand`
over the yielded children; the first raise aborts the loop. -/
def expandChildren (pItem : Nat) : List Node → TreeState → TreeState × Option Err
  | [], st => (st, none)
  | c :: rest, st =>
    let r := expandChild pItem c st
    match r.2 with
    | some e => (r.1, some e)
    | none => expandChildren pItem rest r.1

/-- `TreeCtrl.on_item_expand` (lines 100-115): look the node up in
`_nodes_map` (KeyError when absent), skip leaves, then run the child loop;
after the yielded children the iterator itself may raise. The `except`
clause only prints, so the state reached at the raise is kept. -/
def on_item_expand (st : TreeState) (itemId : Nat) : TreeState × Option Err :=
  match alookup itemId st.nodesMap with
  | none => (st, some Err.keyError)
  | some node =>
    if node.leaf then (st, none)
    else
      let r := expandChildren itemId node.childrenSeq st
      match r.2 with
      | some e => (r.1, some e)
      | none => if node.childrenErr then (r.1, some Err.iterError) else (r.1, none)

/-- The loop body of `on_item_collapse` (lines 123-128) for one child:
`GetFirstChild` (an invalid handle makes the following `Delete` raise),
`Delete`, unregister the two observers (the label unregistration raises
`AttributeError` on a fresh ObsVar), `del _tree_item_map[child.tree_label]`
(KeyError when the key is absent). `_nodes_map` is never touched. -/
def collapseChild (pItem : Nat) (child : Node) (st : TreeState) : TreeState × Option Err :=
  match firstChild st pItem with
  | none => (st, some Err.wxError)
  | some ci =>
    let st1 := deleteItem st ci
    match (st1.labels child.labelId).remove_observer cbLabel with
    | Except.error e => (st1, some e)
    | Except.ok lab =>
      let st2 := setLabel st1 child.labelId lab
      let st3 := setChildObs st2 child.childrenObs
        ((st2.childObs child.childrenObs).remove_observer cbChildren)
      if (alookup child.labelId st3.treeItemMap).isSome then
        ({ st3 with treeItemMap := st3.treeItemMap.filter (fun p => p.1 ≠ child.labelId) },
         none)
      else (st3, some Err.keyError)

/-- The `for child in node.get_tree_children()` loop of `on_item_collapse`. -/
def collapseChildren (pItem : Nat) : List Node → TreeState → TreeState × Option Err
  | [], st => (st, none)
  | c :: rest, st =>
    let r := collapseChild pItem c st
    match r.2 with
    | some e => (r.1, some e)
    | none => collapseChildren pItem rest r.1

/-- `TreeCtrl.on_item_collapse` (lines 117-130): look the node up, skip
leaves, then run the child loop over a fresh `get_tree_children()` call. -/
def on_item_collapse (st : TreeState) (itemId : Nat) : TreeState × Option Err :=
  match alookup itemId st.nodesMap with
  | none => (st, some Err.keyError)
  | some node =>
    if node.leaf then (st, none)
    else
      let r := collapseChildren itemId node.childrenSeq st
      match r.2 with
      | some e => (r.1, some e)
      | none => if node.childrenErr then (r.1, some Err.iterError) else (r.1, none)

/-- Modelled from the spec: `TreeCtrl.on_label_change` is registered as an
observer at tree_project.py lines 92 and 109 but its definition is missing
from the source. Following the spec (section 4.4, onLabelChanged): look
the node up in the mapping from labels to items, a no-op when it is
unmapped, otherwise update the displayed text of the mapped item to the
current value of the label of the node. -/
def on_label_change (node : Node) (st : TreeState) : TreeState :=
  match alookup node.labelId st.treeItemMap with
  | none => st
  | some it =>
    { st with
        items := st.items.map (fun i =>
          if i.id = it then ⟨i.id, i.parent, (st.labels node.labelId).value, i.hasChildren⟩
          else i) }

/-- The leaf node `tree_node_1` of test.py. -/
def n1 : Node := Node.mk 1 true [] false 11

/-- The leaf node `tree_node_2` of test.py. -/
def n2 : Node := Node.mk 2 true [] false 12

/-- The root node `tree_node_3` of test.py, children `[n1, n2]`. -/
def n3 : Node := Node.mk 3 false [n1, n2] false 13

/-- The label store of the test.py scenario: each node owns a freshly
constructed `ObsVar` (observer attribute missing). -/
def labels0 : Nat → ObsVar String := fun l =>
  if l = 1 then ⟨"Node 1", none⟩
  else if l = 2 then ⟨"Node 2", none⟩
  else if l = 3 then ⟨"Node 3", none⟩
  else ⟨"", none⟩

/-- The children-change Observables of the test.py scenario, all freshly
constructed with an empty observer set. -/
def childObs0 : Nat → Observable := fun _ => Observable.init

/-- The state of the freshly constructed `TreeCtrl` of test.py. -/
def initState : TreeState := treeCtrlInit labels0 childObs0

/-- The state after running `populate_tree` on the test.py root. -/
def stPop : TreeState := (populate_tree n3 initState).1

/-! ## Helper lemmas about the scheduler -/

theorem setInsert_nodup {l : List Nat} {x : Nat} (h : l.Nodup) : (setInsert l x).Nodup := by
  unfold setInsert
  by_cases hx : x ∈ l
  · simpa [hx] using h
  · simp [hx, List.nodup_append, h]

theorem setUpdate_nodup {xs : List Nat} : ∀ {l : List Nat}, l.Nodup → (setUpdate l xs).Nodup := by
  induction xs with
  | nil => intro l h; exact h
  | cons x rest ih =>
    intro l h
    exact ih (setInsert_nodup h)

theorem notify_observers_queue_nodup {o : Observable} {s : Sched} (h : s.queue.Nodup) :
    (o.notify_observers s).queue.Nodup :=
  setUpdate_nodup h

theorem notifyAll_log (os : List Observable) (s : Sched) : (notifyAll os s).log = s.log := by
  induction os generalizing s with
  | nil => rfl
  | cons o rest ih => exact ih (o.notify_observers s)

theorem notifyAll_queue_nodup {os : List Observable} {s : Sched} (h : s.queue.Nodup) :
    (notifyAll os s).queue.Nodup := by
  induction os generalizing s with
  | nil => exact h
  | cons o rest ih => exact ih (notify_observers_queue_nodup h)

theorem processQueue_count (interp : Nat → CbResult) (q : List Nat) (cb : Nat) :
    (processQueue interp q).1.count cb ≤ q.count cb := by
  induction q with
  | nil => simp [processQueue]
  | cons c rest ih =>
    cases hc : interp c with
    | raises =>
      simp only [processQueue, hc, List.count_cons, List.count_nil]
      omega
    | ok =>
      simp only [processQueue, hc, List.count_cons]
      omega

theorem processQueue_append (interp : Nat → CbResult) (q : List Nat) :
    q = (processQueue interp q).1 ++ (processQueue interp q).2.1 := by
  induction q with
  | nil => rfl
  | cons c rest ih =>
    cases hc : interp c with
    | raises => simp [processQueue, hc]
    | ok => simpa [processQueue, hc] using ih

/-! ## Claim theorems -/

/-- Claim C4 (code_bug evidence): evaluation of `ObsVar.set` on a freshly
constructed `ObsVar(0)`. Setting the unchanged value 0 is a complete
no-op, as the claim states; setting the different value 1 stores the value
but then raises `AttributeError` inside `notify_observers` (the observer
attribute is missing), leaving the scheduler untouched, so no observer is
ever enqueued, contrary to the claim. -/
theorem c4_code_behavior :
    ((ObsVar.init (0 : Int)).set 0 ⟨[], 0, []⟩).1.value = 0 ∧
    ((ObsVar.init (0 : Int)).set 0 ⟨[], 0, []⟩).2.1 = ⟨[], 0, []⟩ ∧
    ((ObsVar.init (0 : Int)).set 0 ⟨[], 0, []⟩).2.2 = none ∧
    ((ObsVar.init (0 : Int)).set 1 ⟨[], 0, []⟩).1.value = 1 ∧
    ((ObsVar.init (0 : Int)).set 1 ⟨[], 0, []⟩).2.1 = ⟨[], 0, []⟩ ∧
    ((ObsVar.init (0 : Int)).set 1 ⟨[], 0, []⟩).2.2 = some Err.attributeError := by
  decide

/-- Claim C10: a freshly constructed `ObsVar` carries no observer set, so
its first `add_observer`, `remove_observer`, or value-changing `set` does
not complete normally but fails on the missing observer-set attribute
(with the new value already stored in the `set` case). -/
theorem c10_fresh_obsvar (v w : Int) (cb : Nat) (s : Sched) (h : w ≠ v) :
    (ObsVar.init v).observers = none ∧
    (ObsVar.init v).add_observer cb = Except.error Err.attributeError ∧
    (ObsVar.init v).remove_observer cb = Except.error Err.attributeError ∧
    ((ObsVar.init v).set w s).2.2 = some Err.attributeError ∧
    ((ObsVar.init v).set w s).1.value = w := by
  refine ⟨rfl, rfl, rfl, ?_, ?_⟩ <;> simp [ObsVar.set, ObsVar.init, h]

/-- Witness for C10 at `v = 0`, `w = 1`. -/
theorem c10_witness :
    (ObsVar.init (0 : Int)).observers = none ∧
    (ObsVar.init (0 : Int)).add_observer 7 = Except.error Err.attributeError ∧
    (ObsVar.init (0 : Int)).remove_observer 7 = Except.error Err.attributeError ∧
    ((ObsVar.init (0 : Int)).set 1 ⟨[], 0, []⟩).2.2 = some Err.attributeError ∧
    ((ObsVar.init (0 : Int)).set 1 ⟨[], 0, []⟩).1.value = 1 :=
  c10_fresh_obsvar 0 1 7 ⟨[], 0, []⟩ (by decide)

/-- Claim C9 (counterexample): `notify_observers` on an Observable with
zero registered observers, called with an empty pending queue, leaves the
queue unchanged but does issue a drain request (`wx.CallLater` is called
because the queue was empty), contrary to the claim that no drain is
requested. -/
theorem c9_counterexample :
    Observable.init.observers = [] ∧
    (Observable.init.notify_observers ⟨[], 0, []⟩).queue = [] ∧
    ¬ ((Observable.init.notify_observers ⟨[], 0, []⟩).drainRequests =
        (⟨[], 0, []⟩ : Sched).drainRequests) := by
  decide

/-- Claim C9 (amended): `notify_observers` on an Observable with zero
registered observers leaves the pending queue and the invocation log
unchanged, and issues one drain request iff the pending queue was empty at
the call (regardless of the observer count). -/
theorem c9_amended (o : Observable) (s : Sched) (h : o.observers = []) :
    (o.notify_observers s).queue = s.queue ∧
    (o.notify_observers s).log = s.log ∧
    (o.notify_observers s).drainRequests =
      (if s.queue.isEmpty then s.drainRequests + 1 else s.drainRequests) := by
  refine ⟨?_, rfl, rfl⟩
  simp [Observable.notify_observers, obsNotify, h, setUpdate]

/-- Witness for the amended C9 on a nonempty queue. -/
theorem c9_amended_witness :
    (Observable.notify_observers ⟨[]⟩ ⟨[3], 2, [7]⟩).queue = [3] ∧
    (Observable.notify_observers ⟨[]⟩ ⟨[3], 2, [7]⟩).log = [7] ∧
    (Observable.notify_observers ⟨[]⟩ ⟨[3], 2, [7]⟩).drainRequests =
      (if ([3] : List Nat).isEmpty then 2 + 1 else 2) :=
  c9_amended ⟨[]⟩ ⟨[3], 2, [7]⟩ rfl

/-- Claim C6 (counterexample): queue `[1, 2]` with callback 1 raising. The
drain invokes callback 1, the exception propagates, and the remaining
pending callback 2 is never invoked and stays in the queue, contrary to
the claim that the drain isolates the failure and continues. -/
theorem c6_counterexample :
    2 ∈ (⟨[1, 2], 1, []⟩ : Sched).queue ∧
    (process_callbacks (fun n => if n = 1 then CbResult.raises else CbResult.ok)
      ⟨[1, 2], 1, []⟩).2 = some 1 ∧
    ¬ (2 ∈ (process_callbacks (fun n => if n = 1 then CbResult.raises else CbResult.ok)
      ⟨[1, 2], 1, []⟩).1.log) ∧
    (process_callbacks (fun n => if n = 1 then CbResult.raises else CbResult.ok)
      ⟨[1, 2], 1, []⟩).1.queue = [2] := by
  decide

/-- Claim C6 (amended): when a pending callback raises during a drain, the
drain stops there and the exception propagates: the raising callback is
the last one invoked (it was popped and called), the callbacks popped
before it were invoked, and the rest of the queue is exactly the pending
callbacks left uninvoked. -/
theorem c6_amended (interp : Nat → CbResult) (q : List Nat) (c : Nat)
    (h : (processQueue interp q).2.2 = some c) :
    interp c = CbResult.raises ∧
    q = (processQueue interp q).1 ++ (processQueue interp q).2.1 ∧
    (processQueue interp q).1.getLast? = some c := by
  refine ⟨?_, processQueue_append interp q, ?_⟩
  · induction q with
    | nil => simp [processQueue] at h
    | cons a rest ih =>
      cases ha : interp a with
      | raises =>
        simp only [processQueue, ha, Option.some.injEq] at h
        subst h; exact ha
      | ok =>
        simp only [processQueue, ha] at h
        exact ih h
  · induction q with
    | nil => simp [processQueue] at h
    | cons a rest ih =>
      cases ha : interp a with
      | raises =>
        simp only [processQueue, ha, Option.some.injEq] at h
        subst h; simp [processQueue, ha]
      | ok =>
        simp only [processQueue, ha] at h ⊢
        have h2 := ih h
        cases hr : (processQueue interp rest).1 with
        | nil => rw [hr] at h2; simp at h2
        | cons b l => rw [hr] at h2; simpa using h2



/-- Witness for the amended C6 on queue `[1, 2]` with callback 1 raising. -/
theorem c6_amended_witness :
    (fun n => if n = 1 then CbResult.raises else CbResult.ok) 1 = CbResult.raises ∧
    [1, 2] = (processQueue (fun n => if n = 1 then CbResult.raises else CbResult.ok) [1, 2]).1 ++
      (processQueue (fun n => if n = 1 then CbResult.raises else CbResult.ok) [1, 2]).2.1 ∧
    (processQueue (fun n => if n = 1 then CbResult.raises else CbResult.ok) [1, 2]).1.getLast? =
      some 1 :=
  c6_amended (fun n => if n = 1 then CbResult.raises else CbResult.ok) [1, 2] 1 (by decide)

/-- Claim C5: `notify_observers` never invokes a callback synchronously
(any sequence of notify calls leaves the invocation log untouched), and in
the following drain a callback is invoked at most once no matter how many
Observables or repeated notify calls enqueued it beforehand (the pending
queue is a set, so enqueuing coalesces). The drain is taken over callbacks
that do not themselves enqueue. -/
theorem c5_async_coalescing (os : List Observable) (s : Sched) (cb : Nat)
    (interp : Nat → CbResult) (h : s.queue.Nodup) :
    (notifyAll os s).log = s.log ∧
    (process_callbacks interp (notifyAll os s)).1.log.count cb ≤ s.log.count cb + 1 := by
  refine ⟨notifyAll_log os s, ?_⟩
  have hq : (notifyAll os s).queue.Nodup := notifyAll_queue_nodup h
  have h1 : (processQueue interp (notifyAll os s).queue).1.count cb ≤
      (notifyAll os s).queue.count cb := processQueue_count interp (notifyAll os s).queue cb
  have h2 : (notifyAll os s).queue.count cb ≤ 1 := List.nodup_iff_count_le_one.mp hq cb
  have h3 : (process_callbacks interp (notifyAll os s)).1.log =
      (notifyAll os s).log ++ (processQueue interp (notifyAll os s).queue).1 := rfl
  rw [h3, List.count_append, notifyAll_log os s]
  omega

/-- Witness for C5: two Observables both holding callback 5, notified from
an empty scheduler; the drain invokes callback 5 exactly once. -/
theorem c5_witness :
    (notifyAll [⟨[5]⟩, ⟨[5]⟩] ⟨[], 0, []⟩).log = [] ∧
    (process_callbacks (fun _ => CbResult.ok)
      (notifyAll [⟨[5]⟩, ⟨[5]⟩] ⟨[], 0, []⟩)).1.log.count 5 ≤
      ([] : List Nat).count 5 + 1 :=
  c5_async_coalescing [⟨[5]⟩, ⟨[5]⟩] ⟨[], 0, []⟩ 5 (fun _ => CbResult.ok) (by decide)

/-- Claim C3: the label-change handler (modelled from the spec, see
`on_label_change`) is a no-op when the label of the node is unmapped, and
otherwise changes nothing except the displayed text of the mapped item,
which becomes the current value of the label of the node. -/
theorem c3_label_handler (st : TreeState) (node : Node) :
    (alookup node.labelId st.treeItemMap = none → on_label_change node st = st) ∧
    (∀ it, alookup node.labelId st.treeItemMap = some it →
      (on_label_change node st).nodesMap = st.nodesMap ∧
      (on_label_change node st).treeItemMap = st.treeItemMap ∧
      (on_label_change node st).items.length = st.items.length ∧
      (∀ i, i ∈ st.items → ¬ (i.id = it) → i ∈ (on_label_change node st).items) ∧
      (∀ i, i ∈ (on_label_change node st).items → i.id = it →
        i.text = (st.labels node.labelId).value)) := by
  constructor
  · intro h
    unfold on_label_change
    rw [h]
  · intro it h
    unfold on_label_change
    rw [h]
    refine ⟨rfl, rfl, by simp, ?_, ?_⟩
    · intro i hi hne
      simp only [List.mem_map]
      exact ⟨i, hi, by simp [hne]⟩
    · intro i hi hid
      simp only [List.mem_map] at hi
      obtain ⟨j, hj, hje⟩ := hi
      by_cases hjid : j.id = it
      · rw [← hje]; simp [hjid]
      · exfalso
        rw [← hje] at hid
        simp only [hjid, if_false] at hid

/-- A node for the C3 witness scenario: label id 21, a leaf. -/
def nW : Node := Node.mk 21 true [] false 31

/-- State for the C3 witness: the label of `nW` is mapped to item 2 and
currently holds the text B2 while the item still displays B. -/
def stW : TreeState :=
  ⟨fun l => if l = 21 then ⟨"B2", some [cbLabel]⟩ else ⟨"", none⟩,
   fun _ => Observable.init, [(2, nW)], [(21, 2)], [⟨2, 0, "B", false⟩], 3⟩

/-- Witness for C3: on the mapped node `nW` the handler keeps the maps and
updates the text of item 2 to the current label value B2. -/
theorem c3_witness :
    (on_label_change nW stW).treeItemMap = stW.treeItemMap ∧
    (∀ i, i ∈ (on_label_change nW stW).items → i.id = 2 →
      i.text = (stW.labels nW.labelId).value) :=
  ⟨((c3_label_handler stW nW).2 2 rfl).2.1,
   fun i hi hid => ((c3_label_handler stW nW).2 2 rfl).2.2.2.2 i hi hid⟩

/-- Claim C7 (amended): when `get_tree_children()` raises before yielding
any child, `on_item_expand` catches the error at the expand boundary and
leaves the whole state unchanged: no visual item is created and the
binding maps are untouched. -/
theorem c7_amended (st : TreeState) (itemId : Nat) (node : Node)
    (h1 : alookup itemId st.nodesMap = some node)
    (h2 : node.leaf = false) (h3 : node.childrenSeq = [])
    (h4 : node.childrenErr = true) :
    on_item_expand st itemId = (st, some Err.iterError) := by
  unfold on_item_expand
  rw [h1]
  simp [h2, h3, h4, expandChildren]

/-- Node for the C7 amended witness: not a leaf, and its children iterator
raises before yielding anything. -/
def nodeW7 : Node := Node.mk 9 false [] true 90

/-- State for the C7 amended witness: `nodeW7` is mapped to item 1. -/
def stW7 : TreeState :=
  ⟨fun _ => ⟨"", none⟩, fun _ => Observable.init, [(1, nodeW7)], [(9, 1)],
   [⟨1, 0, "A", true⟩], 2⟩

/-- Witness for the amended C7. -/
theorem c7_amended_witness : on_item_expand stW7 1 = (stW7, some Err.iterError) :=
  c7_amended stW7 1 nodeW7 rfl rfl rfl rfl

/-- Child node for the C7 counterexample: a leaf whose label (id 4) does
carry an observer set, so its materialization completes. -/
def childC7 : Node := Node.mk 4 true [] false 14

/-- Parent node for the C7 counterexample: `get_tree_children()` yields
`childC7` and then raises. -/
def parentC7 : Node := Node.mk 9 false [childC7] true 90

/-- State for the C7 counterexample: `parentC7` is mapped to item 1. -/
def stC7 : TreeState :=
  ⟨fun l => if l = 4 then ⟨"B", some []⟩
     else if l = 9 then ⟨"A", some [cbLabel]⟩ else ⟨"", none⟩,
   fun _ => Observable.init, [(1, parentC7)], [(9, 1)], [⟨1, 0, "A", true⟩], 2⟩

/-- Claim C7 (counterexample): the children iterator of `parentC7` raises
after yielding one child. `on_item_expand` catches the error, but the
child processed before the failure keeps its visual item and its entries
in both binding maps, contrary to the claim that the maps are unchanged. -/
theorem c7_counterexample :
    (on_item_expand stC7 1).2 = some Err.iterError ∧
    ¬ ((on_item_expand stC7 1).1.treeItemMap = stC7.treeItemMap) ∧
    (on_item_expand stC7 1).1.treeItemMap = [(9, 1), (4, 2)] ∧
    (on_item_expand stC7 1).1.items.length = 2 ∧
    (alookup 2 (on_item_expand stC7 1).1.nodesMap).isSome = true := by
  decide

/-- Claim C1 (code_bug evidence): expanding the root of the test.py tree
(two leaf children, each owning a fresh `ObsVar` label). The loop creates
the visual item and the `_nodes_map` entry for the first child and then
raises `AttributeError` at `tree_label.add_observer` (the fresh `ObsVar`
has no observer attribute): only one of the two children gets an item,
`_tree_item_map` stays empty while `_nodes_map` has two entries, so the
two binding maps are left mutually inconsistent. -/
theorem c1_code_behavior :
    n3.childrenSeq.length = 2 ∧
    (populate_tree n3 initState).2 = some Err.attributeError ∧
    (on_item_expand stPop 1).2 = some Err.attributeError ∧
    (on_item_expand stPop 1).1.items.length = stPop.items.length + 1 ∧
    (on_item_expand stPop 1).1.treeItemMap = [] ∧
    (on_item_expand stPop 1).1.nodesMap.length = 2 := by
  decide

/-- Label store of the C2 scenario: every label carries an observer set
with the label handler registered, the most favorable state for the
claim (with fresh ObsVar labels the collapse loop would already abort at
`remove_observer` with `AttributeError`). -/
def labelsExp : Nat → ObsVar String := fun l =>
  if l = 1 then ⟨"Node 1", some [cbLabel]⟩
  else if l = 2 then ⟨"Node 2", some [cbLabel]⟩
  else if l = 3 then ⟨"Node 3", some [cbLabel]⟩
  else ⟨"", none⟩

/-- The fully expanded state of the test.py tree, as the spec describes it
after a successful expand of the root: both children materialized, mapped
in both maps, and their observers registered. -/
def stExp : TreeState :=
  ⟨labelsExp, fun _ => ⟨[cbChildren]⟩, [(1, n3), (2, n1), (3, n2)],
   [(3, 1), (1, 2), (2, 3)],
   [⟨1, 0, "Node 3", true⟩, ⟨2, 1, "Node 1", false⟩, ⟨3, 1, "Node 2", false⟩], 4⟩

/-- Claim C2 (code_bug evidence): collapsing the expanded root deletes the
child items, unregisters the child observers and removes the children
from `_tree_item_map`, but the loop never deletes their `_nodes_map`
entries: both child entries survive in the item-to-node map, contrary to
the claim that every child entry is removed from both binding maps. -/
theorem c2_code_behavior :
    (on_item_collapse stExp 1).2 = none ∧
    (on_item_collapse stExp 1).1.treeItemMap = [(3, 1)] ∧
    (on_item_collapse stExp 1).1.items.map Item.id = [1] ∧
    (on_item_collapse stExp 1).1.nodesMap.length = 3 ∧
    (alookup 2 (on_item_collapse stExp 1).1.nodesMap).isSome = true ∧
    (alookup 3 (on_item_collapse stExp 1).1.nodesMap).isSome = true ∧
    ((on_item_collapse stExp 1).1.labels 1).observers = some [] ∧
    ((on_item_collapse stExp 1).1.labels 2).observers = some [] := by
  decide

/-- Claim C8 (code_bug evidence): the `TreeCtrl` constructor only creates
the two empty maps (its body past that is the placeholder comment), so
construction attaches nothing: no visual item, no map entry. Even running
`populate_tree` directly on the test.py root creates the root item with
the right text and its `_nodes_map` entry, then raises `AttributeError`
at `tree_label.add_observer`: the `_tree_item_map` entry, the has-children
mark of the non-leaf root, and the observer registrations never happen. -/
theorem c8_code_behavior :
    initState.nodesMap.length = 0 ∧
    initState.treeItemMap = [] ∧
    initState.items = [] ∧
    (populate_tree n3 initState).2 = some Err.attributeError ∧
    (populate_tree n3 initState).1.treeItemMap = [] ∧
    (populate_tree n3 initState).1.items.map Item.text = ["Node 3"] ∧
    (populate_tree n3 initState).1.items.map Item.hasChildren = [false] ∧
    ((populate_tree n3 initState).1.labels 3).observers = none ∧
    n3.leaf = false := by
  decide

end TreeProject
